import Mathlib

/-!
Shallow embedding of the point-cloud / mesh geometry pipeline of the
repository (src/lib/processors/image-processor.ts, video-processor.ts,
point-cloud-processor.ts, mesh-processor.ts), together with theorems that
settle the specification claims C1 to C10.

Modelling conventions:
- JavaScript numbers are modelled as rationals; typed-array bytes as
  naturals.  Every arithmetic step performed by the source on the inputs
  used here is exact in binary floating point (comparisons against 0.5 and
  30, additions of small integers, divisions by powers of two), so the
  rational model agrees with the double-precision source on these claims.
- Reading a missing array element (JavaScript `undefined`) and the NaN
  values that flow from it are modelled with `Option`: `none` stands for
  `undefined`/NaN.  A thrown `TypeError` (reading a property of
  `undefined`) makes the whole operation return `none`.
- `THREE.BufferGeometry` position/color attributes are modelled as plain
  lists; `geometry.setIndex(array)` as the `index` field of `Mesh`.  The
  index buffer is a flat list of rationals because the source pushes
  arbitrary numbers (for instance vertex x-coordinates) into it.
-/

/-- Model of the DOM `ImageData` consumed by the processors: `data` is the
row-major RGBA byte buffer. -/
structure Frame where
  width : ℕ
  height : ℕ
  data : List ℕ
  deriving DecidableEq

/-- Vector of three rational coordinates. -/
abbrev Vec3 := ℚ × ℚ × ℚ

/-- One sampled point: position plus color, as pushed (three numbers each)
into the `points` and `colors` arrays of the source. -/
structure Point where
  pos : Vec3
  color : Vec3
  deriving DecidableEq, Inhabited

/-! ## ImageProcessor (src/lib/processors/image-processor.ts) -/

/-- Body of the sampling loop of `ImageProcessor.generatePointCloud`
(image-processor.ts lines 43-56): read the RGBA bytes at `(x, y)`,
normalize, and keep the pixel exactly when `a > 0.5` (the source's
hardcoded alpha threshold). -/
def samplePixel (frame : Frame) (y x : ℕ) : Option Point :=
  let i := (y * frame.width + x) * 4
  let r := (frame.data.getD i 0 : ℚ) / 255
  let g := (frame.data.getD (i + 1) 0 : ℚ) / 255
  let b := (frame.data.getD (i + 2) 0 : ℚ) / 255
  let a := (frame.data.getD (i + 3) 0 : ℚ) / 255
  if a > 1/2 then
    some { pos := (((x : ℚ) - (frame.width : ℚ) / 2) / 50,
                   ((frame.height : ℚ) / 2 - (y : ℚ)) / 50,
                   (r + g + b) / 3),
           color := (r, g, b) }
  else none

/-- Modelled from the spec: the same pixel rule, worded as the spec words
it — "Drops any pixel whose normalized alpha channel is `< alphaThreshold`"
(threshold 0.5), every non-dropped pixel is kept. -/
def samplePixelSpec (frame : Frame) (y x : ℕ) : Option Point :=
  let i := (y * frame.width + x) * 4
  let r := (frame.data.getD i 0 : ℚ) / 255
  let g := (frame.data.getD (i + 1) 0 : ℚ) / 255
  let b := (frame.data.getD (i + 2) 0 : ℚ) / 255
  let a := (frame.data.getD (i + 3) 0 : ℚ) / 255
  if a < 1/2 then none
  else
    some { pos := (((x : ℚ) - (frame.width : ℚ) / 2) / 50,
                   ((frame.height : ℚ) / 2 - (y : ℚ)) / 50,
                   (r + g + b) / 3),
           color := (r, g, b) }

/-- `ImageProcessor.generatePointCloud` (image-processor.ts lines 35-70):
row-major loop over `y` then `x`, both advancing by `density`; the visited
coordinates are exactly the multiples of `density` below the bounds. -/
def generatePointCloud (frame : Frame) (density : ℕ) : List Point :=
  ((List.range frame.height).filter (fun y => y % density == 0)).flatMap (fun y =>
    ((List.range frame.width).filter (fun x => x % density == 0)).filterMap (fun x =>
      samplePixel frame y x))

/-- Modelled from the spec: `generatePointCloud` with the spec's wording of
the alpha drop rule (`samplePixelSpec`), same traversal. -/
def generatePointCloudSpec (frame : Frame) (density : ℕ) : List Point :=
  ((List.range frame.height).filter (fun y => y % density == 0)).flatMap (fun y =>
    ((List.range frame.width).filter (fun x => x % density == 0)).filterMap (fun x =>
      samplePixelSpec frame y x))

/-- The 2-by-2 test frame of the alpha-filtering scenario: three opaque
pixels and one pixel with alpha byte 51 (normalized 0.2). -/
def frameC3 : Frame :=
  { width := 2, height := 2,
    data := [255, 255, 255, 255, 255, 255, 255, 255,
             255, 255, 255, 255, 0, 0, 0, 51] }

/-! ## VideoProcessor (src/lib/processors/video-processor.ts) -/

/-- Accumulation loop of `VideoProcessor.calculateOpticalFlow`
(video-processor.ts lines 67-85): for every pixel whose red-channel
absolute difference exceeds 30, add its offset from the frame center to
the running `(dx, dy)` sum.  A missing byte in either buffer gives a NaN
difference in the source, and `NaN > 30` is false, hence the pixel is
skipped. -/
def opticalFlowAccum (frame1 frame2 : Frame) : ℚ × ℚ :=
  (List.range frame1.height).foldl (fun acc y =>
    (List.range frame1.width).foldl (fun acc x =>
      let i := (y * frame1.width + x) * 4
      match frame1.data.get? i, frame2.data.get? i with
      | some b1, some b2 =>
        if 30 < ((b2 : ℤ) - (b1 : ℤ)).natAbs then
          (acc.1 + ((x : ℚ) - (frame1.width : ℚ) / 2),
           acc.2 + ((y : ℚ) - (frame1.height : ℚ) / 2))
        else acc
      | _, _ => acc) acc) (0, 0)

/-- `THREE.Vector3.normalize`: `divideScalar(length || 1)` — divide each
component by the Euclidean length, or by 1 when the length is 0 (so the
zero vector is left unchanged, not turned into NaN). -/
noncomputable def threeNormalize (v : ℝ × ℝ × ℝ) : ℝ × ℝ × ℝ :=
  let l := Real.sqrt (v.1 ^ 2 + v.2.1 ^ 2 + v.2.2 ^ 2)
  let d := if l = 0 then 1 else l
  (v.1 / d, v.2.1 / d, v.2.2 / d)

/-- `VideoProcessor.calculateOpticalFlow`: the normalized accumulated
offset with z-component 0. -/
noncomputable def calculateOpticalFlow (frame1 frame2 : Frame) : ℝ × ℝ × ℝ :=
  let a := opticalFlowAccum frame1 frame2
  threeNormalize ((a.1 : ℝ), (a.2 : ℝ), 0)

/-- A 1-by-1 frame used as a concrete zero-motion witness input. -/
def frameC8 : Frame := { width := 1, height := 1, data := [10, 20, 30, 255] }

/-! ## PointCloudProcessor (src/lib/processors/point-cloud-processor.ts) -/

/-- `PointCloudProcessor.decimateGeometry` (point-cloud-processor.ts lines
141-175) at level `i`, where `ratio = 1 / 2 ^ (i + 1)` exactly:
`vertexCount = ⌊count * ratio⌋`, `stride = ⌊1 / ratio⌋ = 2 ^ (i + 1)`, and
the copy loop keeps the points at source indices `0, stride, 2 * stride,
...` (both the position and the color of a kept point are copied from the
same index, so a list of whole points is copied element-wise). -/
def decimateGeometry (cloud : List Point) (i : ℕ) : List Point :=
  let stride := 2 ^ (i + 1)
  let vertexCount := cloud.length / stride
  (List.range vertexCount).map (fun k => cloud.getD (k * stride) default)

/-- Loop of `PointCloudProcessor.generateLODLevels` (lines 117-139): level
`i` decimates the PREVIOUS level (`currentGeometry` is replaced by the
result each iteration) with `decimationRatio = 1 / 2 ^ (i + 1)`. -/
def lodGo : List Point → ℕ → ℕ → List (List Point)
  | _, _, 0 => []
  | cur, i, fuel + 1 =>
    let d := decimateGeometry cur i
    d :: lodGo d (i + 1) fuel

/-- `PointCloudProcessor.generateLODLevels`: run the loop for `levels`
iterations starting from the full cloud. -/
def generateLODLevels (cloud : List Point) (levels : ℕ) : List (List Point) :=
  lodGo cloud 0 levels

/-- Point-count recurrence realized by the LOD loop: the count after level
`i` is the previous count floor-divided by `2 ^ (i + 1)`. -/
def lenGo : ℕ → ℕ → ℕ → List ℕ
  | _, _, 0 => []
  | cur, i, fuel + 1 =>
    let c := cur / 2 ^ (i + 1)
    c :: lenGo c (i + 1) fuel

/-- Lengths of the LOD levels produced from a cloud of `count` points. -/
def lodLengths (count levels : ℕ) : List ℕ :=
  lenGo count 0 levels

/-- Keep the points at indices `0, s, 2s, ...` of `l`, truncated to
`⌊l.length / s⌋` points — the uniform stride-downsampling the source
actually performs. -/
def strideKeep (l : List Point) (s : ℕ) : List Point :=
  (List.range (l.length / s)).map (fun k => l.getD (k * s) default)

/-- Quality tiers of `ProcessingOptions`. -/
inductive Quality
  | low
  | medium
  | high
  deriving DecidableEq

/-- `PointCloudProcessor.getLODLevels` (lines 108-115): the number of LOD
levels per quality tier. -/
def getLODLevels (quality : Quality) : ℕ :=
  match quality with
  | .low => 2
  | .medium => 4
  | .high => 6

/-- Distance ladder of `PointCloudProcessor.updateLOD` (lines 200-219):
the selected level index is hardcoded to 4 / 3 / 2 / 1 / 0. -/
def selectedLOD (distance : ℚ) : ℕ :=
  if distance > 50 then 4
  else if distance > 20 then 3
  else if distance > 10 then 2
  else if distance > 5 then 1
  else 0

/-- Visibility assignment of `updateLOD`: `level.visible = (index ===
activeLOD)` for each of the `numLevels` stored levels. -/
def updateLODVisible (numLevels : ℕ) (distance : ℚ) : List Bool :=
  (List.range numLevels).map (fun idx => idx == selectedLOD distance)

/-- Concrete single point for the degenerate-cloud counterexample. -/
def pC2 : Point := { pos := (0, 0, 0), color := (1, 1, 1) }

/-- First concrete point for the two-point LOD counterexample. -/
def pA : Point := { pos := (1, 0, 0), color := (1, 0, 0) }

/-- Second concrete point for the two-point LOD counterexample. -/
def pB : Point := { pos := (0, 1, 0), color := (0, 1, 0) }

/-! ## MeshProcessor (src/lib/processors/mesh-processor.ts) -/

/-- Indexed triangle mesh: flat position buffer grouped in threes as
`vertices`, and the index buffer as the flat list of numbers the source
stores (`Array.from(geometry.getIndex().array)` plus whatever `fillHole`
pushes, which need not be integers). -/
structure Mesh where
  vertices : List Vec3
  index : List ℚ
  deriving DecidableEq

/-- Flat position array of a mesh (three numbers per vertex). -/
def positionsFlat (m : Mesh) : List ℚ :=
  m.vertices.flatMap (fun v => [v.1, v.2.1, v.2.2])

/-- JavaScript array read `l[q]` at an arbitrary numeric index: defined
exactly when `q` is an integer within bounds, otherwise `undefined`
(`none`). -/
def jsGet (l : List ℚ) (q : ℚ) : Option ℚ :=
  if q.den = 1 ∧ 0 ≤ q.num then l.get? q.num.toNat else none

/-- Group a flat index buffer into the triangles the source loops read
(`for (i = 0; i < indices.length; i += 3)`); buffers hold whole triples
per the data model. -/
def toTriples (l : List ℚ) : List (ℚ × ℚ × ℚ) :=
  (List.range (l.length / 3)).map (fun k =>
    (l.getD (3 * k) 0, l.getD (3 * k + 1) 0, l.getD (3 * k + 2) 0))

/-- `MeshProcessor.addEdge` (mesh-processor.ts lines 248-251): canonical
`(min, max)` key, count incremented in an insertion-ordered map. -/
def addEdge (edges : List ((ℚ × ℚ) × ℕ)) (a b : ℚ) : List ((ℚ × ℚ) × ℕ) :=
  let key := (min a b, max a b)
  if edges.any (fun e => decide (e.1 = key)) then
    edges.map (fun e => if e.1 = key then (e.1, e.2 + 1) else e)
  else edges ++ [(key, 1)]

/-- Edge-incidence map built by `MeshProcessor.findBoundaries` (lines
145-172): three `addEdge` calls per triangle. -/
def edgeCountsOf (indices : List ℚ) : List ((ℚ × ℚ) × ℕ) :=
  (toTriples indices).foldl
    (fun m t => addEdge (addEdge (addEdge m t.1 t.2.1) t.2.1 t.2.2) t.2.2 t.1) []

/-- `MeshProcessor.findBoundaries`: every canonical edge with incidence
count exactly 1 is emitted as a two-element "boundary loop" `[a, b]`. -/
def findBoundaries (indices : List ℚ) : List (List ℚ) :=
  ((edgeCountsOf indices).filter (fun e => e.2 == 1)).map (fun e => [e.1.1, e.1.2])

/-- `MeshProcessor.buildEdgeList` (lines 109-124): the three directed
edges of every triangle, in order. -/
def buildEdgeList (indices : List ℚ) : List (ℚ × ℚ) :=
  (toTriples indices).foldl
    (fun es t => es ++ [(t.1, t.2.1), (t.2.1, t.2.2), (t.2.2, t.1)]) []

/-- Loop of `MeshProcessor.collapseEdges` (lines 126-143): while more than
`targetCount * 3` edges remain, pop the last edge (`mergeVertices` is an
empty stub).  Popping an empty array yields `undefined` and the
destructuring `[a, b]` throws (`none`).  `newIndices` is never pushed to,
so a completed loop always returns the empty index list. -/
def collapseGo (rem : List (ℚ × ℚ)) (t : ℤ) : Option (List ℚ) :=
  if (rem.length : ℤ) > t * 3 then
    if h : rem = [] then none
    else collapseGo rem.dropLast t
  else some []
termination_by rem.length
decreasing_by
  simp only [List.length_dropLast]
  have := List.length_pos.mpr h
  omega

/-- `MeshProcessor.simplifyGeometry` (lines 32-60) on an indexed mesh:
`targetCount = ⌊indices.length / 3 * (1 - simplificationRatio)⌋`, collapse
edges, and rebuild the geometry from the SAME positions and the index list
`collapseEdges` returned. -/
def simplifyGeometry (m : Mesh) (simplificationRatio : ℚ) : Option Mesh :=
  let targetCount : ℤ := ⌊(m.index.length : ℚ) / 3 * (1 - simplificationRatio)⌋
  let edges := buildEdgeList m.index
  (collapseGo edges targetCount).map
    (fun newIndices => { vertices := m.vertices, index := newIndices })

/-- A hole vertex as read by `fillHole`: the three components obtained
from `positions.getX/getY/getZ`, each possibly `undefined`. -/
abbrev JsVec3 := Option ℚ × Option ℚ × Option ℚ

/-- `MeshProcessor.triangulateHole` (lines 195-223).  When more than three
vertices remain the loop calls `this.findEar`, a method that does not
exist on the class, so a `TypeError` is thrown (`none`).  Otherwise the
final push reads `remaining[0] ... remaining[2]`; with fewer than three
vertices `remaining[2]` is `undefined` and reading `.x` on it throws
(`none`).  With exactly three vertices it returns the three X-COORDINATES
of the vertices as the "triangle". -/
def triangulateHole (vertices : List JsVec3) : Option (List (Option ℚ)) :=
  if 3 < vertices.length then none
  else
    match vertices.get? 0, vertices.get? 1, vertices.get? 2 with
    | some v0, some v1, some v2 => some [v0.1, v1.1, v2.1]
    | _, _, _ => none

/-- `MeshProcessor.fillHole` (lines 174-193): read the boundary vertices,
triangulate, and append the result to the index buffer.  The `none` branch
of `mapM` (an `undefined` component being appended) is unreachable from
`fillHoles`, because `triangulateHole` already throws on every two-vertex
boundary `findBoundaries` produces. -/
def fillHole (m : Mesh) (boundary : List ℚ) : Option Mesh :=
  let pos := positionsFlat m
  let holeVertices := boundary.map (fun i =>
    ((jsGet pos (i * 3), jsGet pos (i * 3 + 1), jsGet pos (i * 3 + 2)) : JsVec3))
  match triangulateHole holeVertices with
  | none => none
  | some ts =>
    match ts.mapM id with
    | some qs => some { m with index := m.index ++ qs }
    | none => none

/-- `MeshProcessor.fillHoles` (lines 62-75) on an indexed mesh: find the
boundaries once, then fill each hole in sequence on the evolving mesh. -/
def fillHoles (m : Mesh) : Option Mesh :=
  (findBoundaries m.index).foldlM fillHole m

/-- JavaScript `Set.add` on an insertion-ordered list. -/
def insertUnique (l : List ℚ) (q : ℚ) : List ℚ :=
  if q ∈ l then l else l ++ [q]

/-- `MeshProcessor.findVertexNeighbors` (lines 225-246): scan the triangle
list and collect the two other corners of every triangle containing
`vertexIndex`, deduplicated in insertion order. -/
def findVertexNeighbors (indices : List ℚ) (vertexIndex : ℕ) : List ℚ :=
  (toTriples indices).foldl (fun ns t =>
    if t.1 = (vertexIndex : ℚ) then insertUnique (insertUnique ns t.2.1) t.2.2
    else if t.2.1 = (vertexIndex : ℚ) then insertUnique (insertUnique ns t.1) t.2.2
    else if t.2.2 = (vertexIndex : ℚ) then insertUnique (insertUnique ns t.1) t.2.1
    else ns) []

/-- NaN-propagating addition of JavaScript numbers. -/
def nanAdd (a b : Option ℚ) : Option ℚ :=
  match a, b with
  | some x, some y => some (x + y)
  | _, _ => none

/-- `Vector3.divideScalar(n)` applied to a centroid coordinate: dividing
by 0 multiplies by Infinity, and the only coordinate ever divided by 0
here is the 0 of an empty-neighbor centroid, giving `0 * Infinity = NaN`
(`none`). -/
def nanDiv (a : Option ℚ) (n : ℚ) : Option ℚ :=
  match a with
  | some x => if n = 0 then none else some (x / n)
  | none => none

/-- Per-vertex body of `MeshProcessor.smoothGeometry` (lines 77-107): sum
the neighbor positions into a centroid and divide by the neighbor count.
A vertex with zero neighbors therefore gets `(NaN, NaN, NaN)`, not its
original position. -/
def smoothVertex (m : Mesh) (i : ℕ) : JsVec3 :=
  let pos := positionsFlat m
  let ns := findVertexNeighbors m.index i
  let c := ns.foldl (fun acc q =>
    ((nanAdd acc.1 (jsGet pos (q * 3)),
      nanAdd acc.2.1 (jsGet pos (q * 3 + 1)),
      nanAdd acc.2.2 (jsGet pos (q * 3 + 2))) : JsVec3))
    ((some 0, some 0, some 0) : JsVec3)
  (nanDiv c.1 (ns.length : ℚ), nanDiv c.2.1 (ns.length : ℚ), nanDiv c.2.2 (ns.length : ℚ))

/-- `MeshProcessor.smoothGeometry`: the replacement position of every
vertex (the source writes them into a fresh `smoothedPositions` buffer and
installs it as the position attribute). -/
def smoothGeometry (m : Mesh) : List JsVec3 :=
  (List.range m.vertices.length).map (smoothVertex m)

/-- Single-triangle mesh for the index-validity claim. -/
def meshC1 : Mesh := { vertices := [(1, 0, 0), (0, 1, 0), (0, 0, 1)], index := [0, 1, 2] }

/-- Single-triangle mesh for the decimation no-op claim. -/
def meshC6 : Mesh := { vertices := [(0, 0, 0), (1, 0, 0), (0, 1, 0)], index := [0, 1, 2] }

/-- One isolated vertex with an (empty) triangle index buffer: every
vertex has zero neighbors. -/
def meshC7 : Mesh := { vertices := [(1, 2, 3)], index := [] }

/-- Single-triangle mesh for the fillHoles frame-effect claim. -/
def meshC10 : Mesh := { vertices := [(0, 0, 0), (2, 0, 0), (0, 2, 0)], index := [0, 1, 2] }

/-- Index buffer of the same triangle repeated three times: every edge has
incidence count 3. -/
def ix9 : List ℚ := [0, 1, 2, 0, 1, 2, 0, 1, 2]

/-! ## Helper lemmas -/

/-- Byte alphas sit strictly above the 0.5 threshold exactly when the byte
is at least 128. -/
theorem byte_alpha_gt_iff (k : ℕ) : (1/2 : ℚ) < (k : ℚ) / 255 ↔ 255 < 2 * k := by
  rw [div_lt_div_iff₀ (by norm_num) (by norm_num)]
  rw [show (1 : ℚ) * 255 = ((255 : ℕ) : ℚ) by norm_num,
      show (k : ℚ) * 2 = ((2 * k : ℕ) : ℚ) by push_cast; ring]
  exact Nat.cast_lt

/-- Byte alphas sit strictly below the 0.5 threshold exactly when the byte
is at most 127. -/
theorem byte_alpha_lt_iff (k : ℕ) : (k : ℚ) / 255 < 1/2 ↔ 2 * k < 255 := by
  rw [div_lt_div_iff₀ (by norm_num) (by norm_num)]
  rw [show (k : ℚ) * 2 = ((2 * k : ℕ) : ℚ) by push_cast; ring,
      show (1 : ℚ) * 255 = ((255 : ℕ) : ℚ) by norm_num]
  exact Nat.cast_lt

/-- The source's keep rule (`a > 0.5`) and the spec's drop rule
(`drop iff a < 0.5`) classify every byte-valued pixel identically, because
a byte alpha `k / 255` never equals `1 / 2` (255 is odd). -/
theorem samplePixel_eq_spec (frame : Frame) (y x : ℕ) :
    samplePixel frame y x = samplePixelSpec frame y x := by
  unfold samplePixel samplePixelSpec
  by_cases h : 2 * frame.data.getD ((y * frame.width + x) * 4 + 3) 0 < 255
  · have h1 : ¬ (1/2 : ℚ) < (frame.data.getD ((y * frame.width + x) * 4 + 3) 0 : ℚ) / 255 := by
      rw [byte_alpha_gt_iff]; omega
    have h2 : (frame.data.getD ((y * frame.width + x) * 4 + 3) 0 : ℚ) / 255 < 1/2 := by
      rw [byte_alpha_lt_iff]; omega
    simp only [if_neg h1, if_pos h2]
  · have h1 : (1/2 : ℚ) < (frame.data.getD ((y * frame.width + x) * 4 + 3) 0 : ℚ) / 255 := by
      rw [byte_alpha_gt_iff]; omega
    have h2 : ¬ (frame.data.getD ((y * frame.width + x) * 4 + 3) 0 : ℚ) / 255 < 1/2 := by
      rw [byte_alpha_lt_iff]; omega
    simp only [if_pos h1, if_neg h2]

/-- Each decimation level keeps exactly `⌊count / 2 ^ (i + 1)⌋` points. -/
theorem decimateGeometry_length (cloud : List Point) (i : ℕ) :
    (decimateGeometry cloud i).length = cloud.length / 2 ^ (i + 1) := by
  simp [decimateGeometry]

/-- The LOD loop emits exactly `fuel` levels. -/
theorem lodGo_length (cur : List Point) (i fuel : ℕ) : (lodGo cur i fuel).length = fuel := by
  induction fuel generalizing cur i with
  | zero => rfl
  | succ f ih => simp [lodGo, ih]

/-- Level sizes produced by the LOD loop follow the chained floor-division
recurrence `lenGo`. -/
theorem lodGo_map_length (fuel : ℕ) : ∀ (cur : List Point) (i : ℕ),
    (lodGo cur i fuel).map List.length = lenGo cur.length i fuel := by
  induction fuel with
  | zero => intro cur i; rfl
  | succ f ih =>
    intro cur i
    simp only [lodGo, lenGo, List.map_cons, List.cons.injEq]
    exact ⟨decimateGeometry_length cur i, by rw [ih, decimateGeometry_length]⟩

/-- Decimation at level `i` is stride-downsampling with stride
`2 ^ (i + 1)`. -/
theorem decimateGeometry_eq_strideKeep (cloud : List Point) (i : ℕ) :
    decimateGeometry cloud i = strideKeep cloud (2 ^ (i + 1)) := rfl

/-- Head of the LOD level list. -/
theorem lodGo_getD_zero (cur : List Point) (i fuel : ℕ) (h : 0 < fuel) :
    (lodGo cur i fuel).getD 0 [] = decimateGeometry cur i := by
  cases fuel with
  | zero => omega
  | succ f => rfl

/-- Each LOD level after the first decimates the previous level with the
next ratio. -/
theorem lodGo_getD_succ : ∀ (fuel : ℕ) (cur : List Point) (i j : ℕ), j + 1 < fuel →
    (lodGo cur i fuel).getD (j + 1) [] =
      decimateGeometry ((lodGo cur i fuel).getD j []) (i + j + 1) := by
  intro fuel
  induction fuel with
  | zero => intro cur i j h; omega
  | succ f ih =>
    intro cur i j h
    cases j with
    | zero =>
      cases f with
      | zero => omega
      | succ f2 =>
        simp [lodGo, List.getD_cons_zero, List.getD_cons_succ]
    | succ k =>
      have h2 : k + 1 < f := by omega
      simp only [lodGo, List.getD_cons_succ]
      rw [ih (decimateGeometry cur i) (i + 1) k h2]
      congr 2
      omega

/-- Counting `true` in the visibility pattern of a hardcoded selected
index. -/
theorem range_map_beq_count (n s : ℕ) :
    ((List.range n).map (fun idx => idx == s)).count true = if s < n then 1 else 0 := by
  induction n with
  | zero => simp
  | succ m ih =>
    rw [List.range_succ, List.map_append, List.count_append, ih]
    rcases lt_trichotomy s m with h | h | h
    · have hm : ¬ (m == s) = true := by simp; omega
      have h1 : s < m + 1 := by omega
      simp [if_pos h, if_pos h1, hm]
    · subst h
      simp
    · have hm : ¬ (m == s) = true := by simp; omega
      have h0 : ¬ s < m := by omega
      have h1 : ¬ s < m + 1 := by omega
      simp [if_neg h0, if_neg h1, hm]

/-! ## Claim theorems -/

/-- C1 (code_bug): the claim states that `fillHoles` produces a mesh in
which every triangle index is a valid vertex index.  The code cannot: its
`triangulateHole` emits the X-COORDINATES of the hole vertices as triangle
indices (second conjunct: vertices with x-coordinates 5, 6, 7 yield the
"triangle" `[5, 6, 7]` regardless of the vertex count), and on any mesh
that actually has a boundary — such as the single triangle `meshC1` —
`fillHoles` throws before producing a mesh at all, because every boundary
"loop" produced by `findBoundaries` has only 2 vertices and
`triangulateHole` reads `remaining[2].x` (first conjunct). -/
theorem C1_fillHoles_invalid_indices :
    fillHoles meshC1 = none ∧
    triangulateHole [((some 5, some 0, some 0) : JsVec3),
      (some 6, some 0, some 0), (some 7, some 0, some 0)] =
      some [some 5, some 6, some 7] := by decide

/-- C2 counterexample: the claim states that a single-point cloud run
through `generateLODLevels` with 4 levels returns 4 levels each containing
exactly one point.  In the code, level 0 already halves the input
(`decimationRatio = 1/2`), so `⌊1/2⌋ = 0` points remain: all four
returned levels are empty. -/
theorem C2_counterexample :
    (generateLODLevels [pC2] 4).map List.length = [0, 0, 0, 0] := by decide

/-- C2 (corrected, amended): `generateLODLevels` returns `levels` levels
whose sizes follow the chained floor recurrence `c 0 = ⌊n / 2⌋`,
`c (i+1) = ⌊c i / 2 ^ (i + 2)⌋` (`lodLengths`); levels may therefore be
empty — no minimum of one point per level is maintained. -/
theorem C2_amended (cloud : List Point) (levels : ℕ) :
    (generateLODLevels cloud levels).length = levels ∧
    (generateLODLevels cloud levels).map List.length = lodLengths cloud.length levels :=
  ⟨lodGo_length cloud 0 levels, lodGo_map_length levels cloud 0⟩

/-- C3 (confirmed): the sampling of `generatePointCloud` (threshold 0.5,
the code's hardcoded value) drops exactly the pixels with normalized alpha
strictly below the threshold and keeps all others — the code's keep rule
`a > 0.5` coincides with the spec's drop rule `a < 0.5` on every
byte-valued alpha because `k / 255 = 1/2` is impossible — and sampling the
2-by-2 frame with one pixel of alpha 0.2 at threshold 0.5 yields exactly 3
points. -/
theorem C3_alpha_filtering :
    (∀ (frame : Frame) (density : ℕ),
      generatePointCloud frame density = generatePointCloudSpec frame density) ∧
    (generatePointCloud frameC3 1).length = 3 := by
  constructor
  · intro frame density
    simp only [generatePointCloud, generatePointCloudSpec, samplePixel_eq_spec]
  · norm_num [generatePointCloud, samplePixel, frameC3, List.range_succ, List.filterMap_cons]

/-- C4 counterexample: the claim states level 0 of `generateLODLevels` is
the unmodified input cloud.  For a two-point cloud and one level, the code
returns `[[pA]]` — level 0 keeps only every second point, not the whole
cloud. -/
theorem C4_counterexample :
    generateLODLevels [pA, pB] 1 = [[pA]] ∧ ([pA] : List Point) ≠ [pA, pB] := by decide

/-- C4 (corrected, amended): levels are returned in order `0..levels-1`,
but level 0 is the input downsampled with stride 2 (first `⌊n/2⌋` points
at indices `0, 2, 4, ...`), and level `i + 1` is obtained from LEVEL `i`
(chained, not from the original cloud) by stride-downsampling with stride
`2 ^ (i + 2)`, truncated to `⌊len / stride⌋` points. -/
theorem C4_amended (cloud : List Point) (levels : ℕ) :
    (generateLODLevels cloud levels).length = levels ∧
    (0 < levels → (generateLODLevels cloud levels).getD 0 [] = strideKeep cloud 2) ∧
    (∀ i, i + 1 < levels → (generateLODLevels cloud levels).getD (i + 1) [] =
      strideKeep ((generateLODLevels cloud levels).getD i []) (2 ^ (i + 2))) := by
  refine ⟨lodGo_length cloud 0 levels, ?_, ?_⟩
  · intro h
    rw [generateLODLevels, lodGo_getD_zero cloud 0 levels h,
      decimateGeometry_eq_strideKeep]
    norm_num
  · intro i h
    rw [generateLODLevels, lodGo_getD_succ levels cloud 0 i h,
      decimateGeometry_eq_strideKeep]
    congr 2
    omega

/-- C4 witness: the two-point cloud with 2 levels instantiates both
conditional parts of the amended claim. -/
theorem C4_amended_witness :
    (0 < 2 ∧ (generateLODLevels [pA, pB] 2).getD 0 [] = strideKeep [pA, pB] 2) ∧
    (0 + 1 < 2 ∧ (generateLODLevels [pA, pB] 2).getD (0 + 1) [] =
      strideKeep ((generateLODLevels [pA, pB] 2).getD 0 []) (2 ^ (0 + 2))) :=
  ⟨⟨by decide, (C4_amended [pA, pB] 2).2.1 (by decide)⟩,
   ⟨by decide, (C4_amended [pA, pB] 2).2.2 0 (by decide)⟩⟩

/-- C5 counterexample: the claim states that after level selection exactly
one level is visible, the highest-index one when distance > 50.  With the
code's 4 medium-quality levels and distance 51, the hardcoded selected
index is 4, which exceeds every stored index: NO level is visible. -/
theorem C5_counterexample :
    updateLODVisible (getLODLevels Quality.medium) 51 = [false, false, false, false] := by
  decide

/-- C5 (corrected, amended): `updateLOD` makes level `idx` visible iff
`idx` equals the hardcoded selected index (4 for distance > 50, 3 for
> 20, 2 for > 10, 1 for > 5, else 0), independent of how many levels
exist; hence exactly one level is visible when the selected index is below
the level count and none otherwise (the selected index never exceeds 4,
so a 6-level set never shows its highest level either). -/
theorem C5_amended (numLevels : ℕ) (distance : ℚ) :
    (updateLODVisible numLevels distance).count true =
      (if selectedLOD distance < numLevels then 1 else 0) ∧
    selectedLOD distance ≤ 4 := by
  constructor
  · exact range_map_beq_count numLevels (selectedLOD distance)
  · unfold selectedLOD
    split_ifs <;> norm_num

/-- C6 (code_bug): the claim states that decimation with a target count at
least the current triangle count is a no-op.  With ratio 0 the target
count equals the current count (1 triangle ≥ 1), yet the code returns a
mesh with an EMPTY index buffer, because `collapseEdges` never appends
anything to `newIndices`; the triangle is lost even though nothing should
have been collapsed. -/
theorem C6_decimate_not_noop :
    simplifyGeometry meshC6 0 = some { vertices := meshC6.vertices, index := [] } ∧
    meshC6.index ≠ [] := by
  constructor
  · have hedges : buildEdgeList meshC6.index = [(0, 1), (1, 2), (2, 0)] := by decide
    have hcollapse : collapseGo [(0, 1), (1, 2), (2, 0)] 1 = some [] := by
      rw [collapseGo]
      norm_num
    have htarget : (⌊((meshC6.index.length : ℚ)) / 3 * (1 - (0 : ℚ))⌋ : ℤ) = 1 := by
      norm_num [meshC6]
    simp only [simplifyGeometry, hedges, htarget, hcollapse, Option.map_some]
    rfl
  · decide

/-- C7 (code_bug): the claim states that `smooth` leaves a vertex with
zero neighbors at its original position.  On `meshC7` (one vertex at
(1, 2, 3), empty triangle list, so zero neighbors) the code computes
`centroid.divideScalar(0)` = `(NaN, NaN, NaN)` (modelled `none`) and
installs that as the new position — not the original one. -/
theorem C7_smooth_not_noop :
    smoothGeometry meshC7 = [(none, none, none)] ∧
    smoothGeometry meshC7 ≠
      meshC7.vertices.map (fun v => ((some v.1, some v.2.1, some v.2.2) : JsVec3)) := by
  decide

/-- C8 (confirmed): `calculateOpticalFlow` returns exactly the
THREE-normalization of the accumulated per-pixel offsets of the pixels
whose red-channel absolute difference exceeds 30; its z-component is
always 0; and a zero accumulated offset (in particular, no pixel above the
threshold) yields exactly the zero vector, with no error. -/
theorem C8_opticalFlow (frame1 frame2 : Frame)
    (h : frame1.width = frame2.width ∧ frame1.height = frame2.height) :
    calculateOpticalFlow frame1 frame2 =
      threeNormalize (((opticalFlowAccum frame1 frame2).1 : ℝ),
        ((opticalFlowAccum frame1 frame2).2 : ℝ), 0) ∧
    (calculateOpticalFlow frame1 frame2).2.2 = 0 ∧
    (opticalFlowAccum frame1 frame2 = (0, 0) →
      calculateOpticalFlow frame1 frame2 = (0, 0, 0)) := by
  refine ⟨rfl, ?_, ?_⟩
  · show ((0 : ℝ) / _) = 0
    exact zero_div _
  · intro h0
    unfold calculateOpticalFlow
    rw [h0]
    unfold threeNormalize
    norm_num

/-- C8 witness: two identical 1-by-1 frames are equal-sized and produce
the zero vector. -/
theorem C8_opticalFlow_witness :
    (frameC8.width = frameC8.width ∧ frameC8.height = frameC8.height) ∧
    calculateOpticalFlow frameC8 frameC8 = (0, 0, 0) :=
  ⟨⟨rfl, rfl⟩, (C8_opticalFlow frameC8 frameC8 ⟨rfl, rfl⟩).2.2 (by decide)⟩

/-- C9 counterexample: the claim states `findBoundaries` is empty iff
every edge has incidence count exactly 2.  The same triangle listed three
times gives every edge incidence count 3 — and `findBoundaries` is still
empty. -/
theorem C9_counterexample :
    findBoundaries ix9 = [] ∧
    edgeCountsOf ix9 = [((0, 1), 3), ((1, 2), 3), ((0, 2), 3)] := by decide

/-- C9 (corrected, amended): `findBoundaries` returns an empty sequence
iff NO canonical edge has triangle-incidence count exactly 1 (count 2 is
not required; any count other than 1 passes). -/
theorem C9_amended (indices : List ℚ) :
    findBoundaries indices = [] ↔ ∀ e ∈ edgeCountsOf indices, e.2 ≠ 1 := by
  simp [findBoundaries, List.map_eq_nil_iff, List.filter_eq_nil_iff]

/-- C10 (code_bug): the claim states that `fillHoles` leaves the vertex
positions unchanged and only appends to the triangle index list.  On any
mesh that has a boundary edge — such as the single triangle `meshC10` —
the code instead throws a TypeError before producing any mesh
(`findBoundaries` emits 2-vertex edge pairs, never full loops, and
`triangulateHole` reads `remaining[2].x` on them), so no output extending
the input exists. -/
theorem C10_fillHoles_crash :
    fillHoles meshC10 = none ∧ findBoundaries meshC10.index ≠ [] := by decide
